import Mathlib

/-!
Verification of the HIDS/IDS detection pipeline against its design document.

This file gives a shallow embedding, in Lean, of the pure cores of three
components of the backend:

* the UFW rule normalizer (`backend/app/services/firewall.py`, `list_rules`),
* the packet classifier (`backend/app/services/pcap.py`, `check_packet_status`
  and `parse_tcpdump_line`),
* the file-integrity consumer (`backend/app/services/file_monitor.py`,
  `_handle_file_event` and its helpers).

Python strings are modelled as `String` or `List Char`; the regular
expressions that the code applies are modelled by specialised matchers that
reproduce the backtracking order of the Python `re` engine on the concrete
pattern in question (all patterns used by the code are simple enough that
the backtracking order is spelled out where it matters).  Database records
are modelled as in-memory structures; each step of the event consumer acts
on a list of records playing the role of the `protected_files` table.
Fallible code (the `KeyError` reachable in `check_packet_status`) is
modelled with `Except`.
-/

namespace HIDS

/-! ## Python string primitives -/

/-- Whitespace characters recognised by the Python regex class `\s` and by
`str.strip` (ASCII range). -/
def isWs (c : Char) : Bool :=
  c = ' ' || c = '\t' || c = '\n' || c = '\r' || c = '\x0b' || c = '\x0c'

/-- Word characters recognised by the Python regex class `\w` (ASCII range). -/
def isWordChar (c : Char) : Bool :=
  c.isAlphanum || c = '_'

/-- Python `str.lower` on a character list (ASCII case mapping). -/
def lowerL (cs : List Char) : List Char := cs.map Char.toLower

/-- Python `str.lower` on a string (ASCII case mapping). -/
def lowerS (s : String) : String := (lowerL s.toList).asString

/-- Python `str.strip`: drop whitespace from both ends. -/
def stripL (cs : List Char) : List Char :=
  ((cs.dropWhile isWs).reverse.dropWhile isWs).reverse

/-- Value of a nonempty decimal digit string, as Python `int` computes it. -/
def natOfDigits (ds : List Char) : Nat :=
  ds.foldl (fun n c => 10 * n + (c.toNat - 48)) 0

/-- Drop the literal `p` from the front of `cs`; `none` when `cs` does not
start with `p`. -/
def dropPref : List Char → List Char → Option (List Char)
  | [], cs => some cs
  | _ :: _, [] => none
  | a :: ps, c :: cs => if a = c then dropPref ps cs else none

/-- Does `cs` start with the literal `p`? -/
def startsWithL (p cs : List Char) : Bool := (dropPref p cs).isSome

/-- Does the literal `n` occur anywhere inside `hay`?  (Python `in` on
strings.) -/
def isSubstr (n : List Char) : List Char → Bool
  | [] => n.isEmpty
  | c :: rest => startsWithL n (c :: rest) || isSubstr n rest

/-! ## UFW rule normalizer (`firewall.py`, `UFWManager.list_rules`)

The parser applies the Python pattern

  `^\[\s*(\d+)\]\s+(.+?)\s+(ALLOW|DENY|REJECT)\s+(IN|OUT)?\s+(.+)$`

to each stripped line of `ufw status numbered` output.  The matchers below
reproduce the `re` engine on this pattern: the leading `\s*`/`\d+` pieces
are deterministic (their character classes are disjoint from what follows),
the `\s+` before the lazy group backtracks from its longest run downwards,
the lazy `(.+?)` grows one character at a time, the alternations are tried
left to right, and `(IN|OUT)?` prefers a token over the empty match. -/

/-- One normalized firewall rule as produced by `list_rules` (the dict with
keys `num`, `rule`, `action`, `direction`, `from`). -/
structure UFWRule where
  num : Nat
  rule : String
  action : String
  direction : String
  «from» : String
deriving DecidableEq, Repr

/-- Tail of the pattern after the optional direction: `\s+(.+)$`.  The final
greedy `(.+)` takes everything that is left; when nothing is left the `\s+`
gives one character back (possible only when the run has length at least
two). -/
def wsThenG5 (r : List Char) : Option String :=
  let run := (r.takeWhile isWs).length
  if run = 0 then none
  else
    let rest := r.drop run
    if rest.isEmpty then
      if 2 ≤ run then some ((r.drop (run - 1)).asString) else none
    else some rest.asString

/-- Try one direction token of `(IN|OUT)` at `v`, then `\s+(.+)$`. -/
def tryDir (tok : String) (v : List Char) : Option (String × String) :=
  (dropPref tok.toList v).bind fun r =>
    (wsThenG5 r).map fun g5 => (tok, g5)

/-- Piece `\s+(IN|OUT)?\s+(.+)$` of the pattern, anchored at `u`.  The first
`\s+` is greedy; a direction token can only follow its maximal run, while
the empty alternative of `(IN|OUT)?` succeeds (at a shorter run) exactly
when the run can feed both `\s+` pieces. -/
def afterAction (u : List Char) : Option (String × String) :=
  let m := (u.takeWhile isWs).length
  if m = 0 then none
  else
    let v := u.drop m
    match tryDir "IN" v with
    | some r => some r
    | none =>
      match tryDir "OUT" v with
      | some r => some r
      | none =>
        if v.isEmpty then
          if 3 ≤ m then some ("", ((u.drop (m - 1)).asString)) else none
        else
          if 2 ≤ m then some ("", v.asString) else none

/-- Try one action token of `(ALLOW|DENY|REJECT)` at `t`, then the rest of
the pattern. -/
def tryAct (tok : String) (t : List Char) : Option (String × String × String) :=
  (dropPref tok.toList t).bind fun u =>
    (afterAction u).map fun p => (tok, p.1, p.2)

/-- Piece `\s+(ALLOW|DENY|REJECT)\s+(IN|OUT)?\s+(.+)$`, anchored at `s`:
a mandatory whitespace run, then the first action token that fits. -/
def matchRest (s : List Char) : Option (String × String × String) :=
  let w := (s.takeWhile isWs).length
  if w = 0 then none
  else
    let t := s.drop w
    match tryAct "ALLOW" t with
    | some r => some r
    | none =>
      match tryAct "DENY" t with
      | some r => some r
      | none => tryAct "REJECT" t

/-- Lazy group `(.+?)`: grow the capture one character at a time, retrying
the rest of the pattern after each step.  `acc` holds the reversed capture
so far. -/
def lazyG2 : List Char → List Char → Option (String × String × String × String)
  | _, [] => none
  | acc, c :: rest =>
    match matchRest rest with
    | some (act, dir, g5) => some (((c :: acc).reverse).asString, act, dir, g5)
    | none => lazyG2 (c :: acc) rest

/-- Backtracking over the `\s+` run that precedes the lazy group: the run is
tried from its full (greedy) length down to one character. -/
def tryWsSplits (s3 : List Char) : Nat → Option (String × String × String × String)
  | 0 => none
  | k + 1 =>
    match lazyG2 [] (s3.drop (k + 1)) with
    | some r => some r
    | none => tryWsSplits s3 k

/-- Full status-line pattern, anchored at the start of the (stripped) line.
Returns the groups `(number, field-A, action, direction, field-B)`. -/
def matchStatusPattern (cs : List Char) : Option (Nat × String × String × String × String) :=
  match cs with
  | '[' :: s =>
    let s1 := s.drop ((s.takeWhile isWs).length)
    let digits := s1.takeWhile Char.isDigit
    if digits.isEmpty then none
    else
      match s1.drop digits.length with
      | ']' :: s3 =>
        let w := (s3.takeWhile isWs).length
        if w = 0 then none
        else
          (tryWsSplits s3 w).map fun r =>
            (natOfDigits digits, r.1, r.2.1, r.2.2.1, r.2.2.2)
      | _ => none
  | _ => none

/-- Heuristic from `list_rules`: field-A is kept as the destination matcher
when it fully matches `^\d+(/\w+)?$`. -/
def portProtoTok (cs : List Char) : Bool :=
  let ds := cs.takeWhile Char.isDigit
  if ds.isEmpty then false
  else
    match cs.drop ds.length with
    | [] => true
    | '/' :: ps => !ps.isEmpty && ps.all isWordChar
    | _ => false

/-- Normalization step of `list_rules`: decide which parsed field is the
destination matcher (`rule`) and which is the source (`from`). -/
def normalizeFields (to_field from_field : String) : String × String :=
  if portProtoTok to_field.toList || to_field.toList.contains '/'
      || lowerS to_field = "anywhere" || lowerS to_field = "ipv6" then
    (to_field, from_field)
  else
    (from_field, to_field)

/-- Processing of one raw output line inside `list_rules`: strip it, skip it
unless it starts with a bracket, apply the pattern (unparsed lines are
logged and skipped), strip the two captured fields and normalize them. -/
def parseStatusLine (raw : String) : Option UFWRule :=
  let l := stripL raw.toList
  if startsWithL ['['] l then
    match matchStatusPattern l with
    | none => none
    | some (n, g2, act, dir, g5) =>
      let to_field := (stripL g2.toList).asString
      let from_field := (stripL g5.toList).asString
      let p := normalizeFields to_field from_field
      some ⟨n, p.1, act, dir, p.2⟩
  else none

/-- Splitting of the tool output into lines at newline characters.  (The
Python `str.splitlines` also handles exotic terminators and drops a final
empty chunk; neither difference matters here, since an empty chunk does not
start with a bracket and is skipped.) -/
def splitLinesGo (acc : List Char) : List Char → List (List Char)
  | [] => [acc.reverse]
  | c :: cs =>
    if c = '\n' then acc.reverse :: splitLinesGo [] cs
    else splitLinesGo (c :: acc) cs

/-- Line splitting on a string. -/
def splitLines (s : String) : List String :=
  (splitLinesGo [] s.toList).map List.asString

/-- Embedding of `UFWManager.list_rules`, applied to the raw text of
`ufw status numbered`. -/
def list_rules (output : String) : List UFWRule :=
  (splitLines output).filterMap parseStatusLine

/-! ## Packet classifier (`pcap.py`, `PacketMonitor.check_packet_status`)

The classifier receives the rules produced by `list_rules`, the local
address set, and one packet.  Rule and source fields are lowercased before
matching; the loop returns at the first matching rule; the lookup
`protocol_ports[rule_text]` can raise `KeyError`, which the loop does not
catch, so the embedding returns `Except Unit String`. -/

/-- Outcome of processing one rule inside the classification loop. -/
inductive RuleOutcome
  | err
  | next
  | ret (v : String)
deriving DecidableEq, Repr

/-- Verdict string returned once a rule has matched: `ALLOW` yields
`"allowed"`, anything else (`DENY` or `REJECT`) yields `"denied"`. -/
def actionVerdict (action : String) : String :=
  if action == "ALLOW" then "allowed" else "denied"

/-- Membership of `is_outgoing`: the packet is outgoing when its source
address is one of the local addresses of the host. -/
def is_outgoing (localIps : List String) (srcIp _dstIp : String) : Bool :=
  localIps.contains srcIp

/-- Python truthiness of the optional `dst_port` argument: both `None` and
`0` are falsy. -/
def truthy : Option Nat → Bool
  | none => false
  | some n => n != 0

/-- Direction filter at the top of the loop body: skip the rule when its
(lowercased) direction is nonempty and contradicts the direction of the
packet. -/
def dirSkip (isOut : Bool) (ruleDir : String) : Bool :=
  !(ruleDir == "") && ((isOut && ruleDir == "in") || (!isOut && ruleDir == "out"))

/-- Full match of `^(\d+)(/(\w+))?$` against a (lowercased) rule field:
a port number with an optional protocol suffix. -/
def parsePortProto (cs : List Char) : Option (Nat × Option String) :=
  let ds := cs.takeWhile Char.isDigit
  if ds.isEmpty then none
  else
    match cs.drop ds.length with
    | [] => some (natOfDigits ds, none)
    | '/' :: ps =>
      if !ps.isEmpty && ps.all isWordChar then some (natOfDigits ds, some ps.asString)
      else none
    | _ => none

/-- Port comparison for one rule field: the field must parse as
`port[/proto]`, the port must equal `dst_port`, and an absent protocol is a
wildcard.  The field is already lowercased, so lowering its protocol part
again (as the code does) is the identity. -/
def portFieldMatch (field : List Char) (protocol : String) (dstPort : Nat) : Bool :=
  match parsePortProto field with
  | some (p, protoOpt) =>
    p == dstPort && (protoOpt.isNone || protoOpt == some (lowerS protocol))
  | none => false

/-- Port-matching phase: runs only when `dst_port` is truthy, and tries the
destination field and then the source field of the rule. -/
def portMatched (protocol : String) (dstPort : Option Nat) (ruleText ruleFrom : String) : Bool :=
  match dstPort with
  | some n =>
    if n != 0 then
      portFieldMatch ruleText.toList protocol n || portFieldMatch ruleFrom.toList protocol n
    else false
  | none => false

/-- Fixed name-to-(port, proto) table `protocol_ports`. -/
def protocol_ports : List (String × Nat × String) :=
  [("ssh", 22, "tcp"), ("http", 80, "tcp"), ("https", 443, "tcp"),
   ("ftp", 21, "tcp"), ("smtp", 25, "tcp"), ("dns", 53, "udp")]

/-- Dictionary lookup in `protocol_ports`. -/
def svcLookup (s : String) : Option (Nat × String) :=
  (protocol_ports.find? (fun p => p.1 == s)).map (fun p => p.2)

/-- Service-name phase: when either lowercased field is a key of the table,
the code evaluates `protocol_ports[rule_text]` — a `KeyError` when only the
source field is a key.  On success the rule matches when `dst_port` equals
the table port and the packet protocol (lowercased) equals the table
protocol. -/
def svcMatchStep (protocol : String) (dstPort : Option Nat) (ruleText ruleFrom : String) :
    Except Unit Bool :=
  if (svcLookup ruleText).isSome || (svcLookup ruleFrom).isSome then
    match svcLookup ruleText with
    | none => .error ()
    | some (p, proto) => .ok (dstPort == some p && lowerS protocol == proto)
  else .ok false

/-- Literals treated as an unrestricted field. -/
def anyAnywhere (s : String) : Bool := s == "anywhere" || s == "any"

/-- First occurrence of `\d+\.\d+\.\d+\.\d+` starting at the given
position: four maximal digit runs separated by dots.  Each run is bounded
by a non-digit, so the greedy runs are deterministic. -/
def ipv4At (cs : List Char) : Option (List Char × List Char) :=
  let d1 := cs.takeWhile Char.isDigit
  if d1.isEmpty then none
  else
    match cs.drop d1.length with
    | '.' :: r1 =>
      let d2 := r1.takeWhile Char.isDigit
      if d2.isEmpty then none
      else
        match r1.drop d2.length with
        | '.' :: r2 =>
          let d3 := r2.takeWhile Char.isDigit
          if d3.isEmpty then none
          else
            match r2.drop d3.length with
            | '.' :: r3 =>
              let d4 := r3.takeWhile Char.isDigit
              if d4.isEmpty then none
              else
                some (d1 ++ '.' :: d2 ++ '.' :: d3 ++ '.' :: d4, r3.drop d4.length)
            | _ => none
        | _ => none
    | _ => none

/-- Leftmost search of `(\d+\.\d+\.\d+\.\d+)` (Python `re.search`): try the
anchored match at every position from the left. -/
def findIPv4 : List Char → Option String
  | [] => none
  | c :: rest =>
    match ipv4At (c :: rest) with
    | some (ip, _) => some ip.asString
    | none => findIPv4 rest

/-- Source-restriction block of the first return branch: when the
(lowercased) source field is not `anywhere`/`any` and contains an IPv4
literal different from the packet source, the match is cancelled. -/
def sourceFilter (srcIp ruleFrom : String) (matched : Bool) : Bool :=
  if !(anyAnywhere ruleFrom) then
    match findIPv4 ruleFrom.toList with
    | some ip => if srcIp != ip then false else matched
    | none => matched
  else matched

/-- Source-restriction block of the second return branch: the guard tests
the destination field, but the IPv4 literal is still extracted from the
source field. -/
def sourceFilter2 (srcIp ruleText ruleFrom : String) (matched : Bool) : Bool :=
  if !(anyAnywhere ruleText) then
    match findIPv4 ruleFrom.toList with
    | some ip => if srcIp != ip then false else matched
    | none => matched
  else matched

/-- Second return branch of the loop body: `matched` is the value of the
match flag after the first branch. -/
def branch2 (srcIp ruleText ruleFrom action : String) (matched : Bool) : RuleOutcome :=
  if matched || anyAnywhere ruleFrom then
    if sourceFilter2 srcIp ruleText ruleFrom matched then .ret (actionVerdict action)
    else .next
  else .next

/-- Both return branches of the loop body, starting from the match flag
produced by the port and service phases. -/
def branches (srcIp ruleText ruleFrom action : String) (matched0 : Bool) : RuleOutcome :=
  if matched0 || anyAnywhere ruleText then
    if sourceFilter srcIp ruleFrom matched0 then .ret (actionVerdict action)
    else branch2 srcIp ruleText ruleFrom action (sourceFilter srcIp ruleFrom matched0)
  else branch2 srcIp ruleText ruleFrom action matched0

/-- One iteration of the classification loop on rule `r`; the rule text,
source and direction fields are lowercased on entry. -/
def ruleStep (protocol srcIp : String) (dstPort : Option Nat) (isOut : Bool)
    (r : UFWRule) : RuleOutcome :=
  if dirSkip isOut (lowerS r.direction) then .next
  else
    match (if !(portMatched protocol dstPort (lowerS r.rule) (lowerS r.«from»)) then
             svcMatchStep protocol dstPort (lowerS r.rule) (lowerS r.«from»)
           else .ok false) with
    | .error _ => .err
    | .ok m2 =>
      branches srcIp (lowerS r.rule) (lowerS r.«from») r.action
        (portMatched protocol dstPort (lowerS r.rule) (lowerS r.«from») || m2)

/-- Classification loop over the rule list, with the direction-dependent
default policy when no rule returns. -/
def classifyLoop (protocol srcIp : String) (dstPort : Option Nat) (isOut : Bool) :
    List UFWRule → Except Unit String
  | [] => .ok (if isOut then "allowed" else "denied")
  | r :: rs =>
    match ruleStep protocol srcIp dstPort isOut r with
    | .err => .error ()
    | .ret v => .ok v
    | .next => classifyLoop protocol srcIp dstPort isOut rs

/-- Embedding of `PacketMonitor.check_packet_status`.  The `src_port`
argument is accepted and, as in the code, never used. -/
def check_packet_status (rules : List UFWRule) (localIps : List String)
    (protocol srcIp dstIp : String) (_srcPort dstPort : Option Nat) : Except Unit String :=
  classifyLoop protocol srcIp dstPort (is_outgoing localIps srcIp dstIp) rules

/-! ## File integrity monitor (`file_monitor.py`, `FileMonitor`)

The consumer step `_handle_file_event` is modelled as a pure transition on
the `protected_files` table (a list of records), returning the new table,
the alert records persisted and broadcast during the step, and the
`file_event` payloads broadcast during the step.

Two points of the embedding mirror ORM behaviour that the step depends on:

* every helper (`_get_protected_file`, `_update_access_attempts`,
  `_auto_lock_file`) opens its own session, so the record object held by
  `_handle_file_event` is a detached snapshot taken *before* the increment
  (`expire_on_commit=False` keeps its loaded values); the auto-lock
  threshold test therefore reads the pre-increment `access_attempts`;
* the `status` column is a Python `enum.Enum` (`FileStatus`); a freshly
  loaded record holds an enum *member*, and the comparison
  `protected_file.status != "locked"` compares that member with a plain
  string, which in Python is never equal.  `pyEqStatus` makes this
  explicit. -/

/-- Members of the `FileStatus` enum from `database.py`. -/
inductive FileStatus
  | «protected»
  | locked
  | authorized
deriving DecidableEq, Repr

/-- Python equality between the loaded `status` attribute (an `enum.Enum`
member) and a plain string: `enum.Enum.__eq__` with a `str` argument falls
back to identity, so the result is always `false`. -/
def pyEqStatus (_s : FileStatus) (_t : String) : Bool := false

/-- One row of the `protected_files` table, with the columns the consumer
reads or writes.  Timestamps are abstract `Nat` instants. -/
structure ProtectedFile where
  id : Nat
  path : String
  status : FileStatus
  access_attempts : Nat
  last_accessed : Option Nat
  lock_reason : Option String
  alert_on_read : Bool
  alert_on_write : Bool
  alert_on_delete : Bool
  auto_lock : Bool
deriving DecidableEq, Repr

/-- Members of the `AlertSeverity` enum. -/
inductive AlertSeverity
  | critical
  | warning
  | info
deriving DecidableEq, Repr

/-- One alert record as created (and broadcast) by the monitor. -/
structure Alert where
  type : String
  severity : AlertSeverity
  title : String
  description : String
  source : String
  status : String
deriving DecidableEq, Repr

/-- Payload of one `file_event` broadcast. -/
structure FileEventMsg where
  type : String
  path : String
  old_path : Option String
  protected_file_id : Nat
  timestamp : Nat
deriving DecidableEq, Repr

/-- Python `str.title`: uppercase a letter that starts a letter run,
lowercase the other letters.  The boolean tracks whether the previous
character was a letter. -/
def titleGo : Bool → List Char → List Char
  | _, [] => []
  | prevAlpha, c :: cs =>
    let c' := if c.isAlpha then (if prevAlpha then c.toLower else c.toUpper) else c
    c' :: titleGo c.isAlpha cs

/-- Python `str.title` on a string. -/
def titleCase (s : String) : String := (titleGo false s.toList).asString

/-- Alert record created by `_create_file_alert` (severity WARNING,
category `file`). -/
def fileWarnAlert (event_type file_path : String) : Alert :=
  { type := "file", severity := .warning,
    title := "Protected File " ++ titleCase event_type,
    description := "File " ++ file_path ++ " was " ++ event_type,
    source := file_path, status := "active" }

/-- Alert record created by `_auto_lock_file` (severity CRITICAL). -/
def autoLockAlert (path reason : String) : Alert :=
  { type := "file", severity := .critical,
    title := "File Auto-Locked",
    description := "File " ++ path ++ " has been automatically locked: " ++ reason,
    source := path, status := "active" }

/-- Alert decision of `_handle_file_event`: MODIFIED needs `alert_on_write`,
CREATED and DELETED need `alert_on_delete`, MOVED needs `alert_on_write`. -/
def should_alert (event_type : String) (f : ProtectedFile) : Bool :=
  if event_type == "modified" && f.alert_on_write then true
  else if (event_type == "created" || event_type == "deleted") && f.alert_on_delete then true
  else if event_type == "moved" && f.alert_on_write then true
  else false

/-- Embedding of `_get_protected_file`: exact path match against the table
first; otherwise attribute a path lying under a protected directory (prefix
plus separator) to the record of that directory — which may itself be absent
from the table, in which case the lookup still returns nothing. -/
def get_protected_file (db : List ProtectedFile) (paths : List String)
    (file_path : String) : Option ProtectedFile :=
  match db.find? (fun g => g.path == file_path) with
  | some f => some f
  | none =>
    match paths.find? (fun pp => startsWithL (pp ++ "/").toList file_path.toList) with
    | some pp => db.find? (fun g => g.path == pp)
    | none => none

/-- Embedding of `_update_access_attempts`: re-fetch the row by id and
increment its counter and access time (ids are primary keys, so at most one
row is concerned). -/
def update_access_attempts (db : List ProtectedFile) (fid : Nat) (now : Nat) :
    List ProtectedFile :=
  db.map fun g =>
    if g.id == fid then
      { g with access_attempts := g.access_attempts + 1, last_accessed := some now }
    else g

/-- Default reason passed by `_handle_file_event` to `_auto_lock_file`. -/
def lock_reason_default : String := "Multiple suspicious access attempts"

/-- Embedding of `_auto_lock_file`: re-fetch the row by id; the guard
compares the loaded enum member with the string `"locked"` (see
`pyEqStatus`); when it passes, set the status and reason and emit one
CRITICAL alert. -/
def auto_lock_file (db : List ProtectedFile) (fid : Nat) (reason : String) :
    List ProtectedFile × List Alert :=
  match db.find? (fun g => g.id == fid) with
  | none => (db, [])
  | some g =>
    if !(pyEqStatus g.status "locked") then
      (db.map fun h =>
        if h.id == fid then { h with status := .locked, lock_reason := some reason } else h,
       [autoLockAlert g.path reason])
    else (db, [])

/-- Embedding of `_handle_file_event` for one queued event: resolve the
path (unattributable events are dropped), increment the counter, decide and
emit the WARNING alert, run the auto-lock escalation on the *pre-increment*
snapshot of `auto_lock`/`access_attempts`, and finally broadcast one
`file_event` unconditionally. -/
def handle_file_event (db : List ProtectedFile) (paths : List String)
    (event_type file_path : String) (old_path : Option String) (now : Nat) :
    List ProtectedFile × List Alert × List FileEventMsg :=
  match get_protected_file db paths file_path with
  | none => (db, [], [])
  | some f =>
    let db1 := update_access_attempts db f.id now
    let alerts1 := if should_alert event_type f then [fileWarnAlert event_type file_path] else []
    let p2 :=
      if f.auto_lock && decide (5 < f.access_attempts) then
        auto_lock_file db1 f.id lock_reason_default
      else (db1, [])
    (p2.1, alerts1 ++ p2.2, [⟨event_type, file_path, old_path, f.id, now⟩])

/-- Consumer run over `n` identical consecutive events (the queue is a
single-consumer FIFO, so events are processed strictly in order). -/
def run_events (paths : List String) (event_type file_path : String)
    (old_path : Option String) (now : Nat) :
    Nat → List ProtectedFile → List ProtectedFile × List Alert × List FileEventMsg
  | 0, db => (db, [], [])
  | n + 1, db =>
    let s := handle_file_event db paths event_type file_path old_path now
    let r := run_events paths event_type file_path old_path now n s.1
    (r.1, s.2.1 ++ r.2.1, s.2.2 ++ r.2.2)

/-- Number of CRITICAL alerts in a list. -/
def criticalCount (as : List Alert) : Nat :=
  (as.filter (fun a => a.severity == AlertSeverity.critical)).length

/-- Number of WARNING alerts in a list. -/
def warningCount (as : List Alert) : Nat :=
  (as.filter (fun a => a.severity == AlertSeverity.warning)).length

/-! ## Capture-line parser (`pcap.py`, `PacketMonitor.parse_tcpdump_line`)

The parser runs inside a `try`/`except` that converts any error to a `None`
result, so the embedding is a total function into `Option`.  The patterns
(`^(\d+\.\d+)\s+`, the two address patterns and `length\s+(\d+)`) consist
of digit runs bounded by characters outside the digit class, so the greedy
matches are deterministic; the searches scan positions from the left as
`re.search` does. -/

/-- Anchored match of `^(\d+\.\d+)\s+`: returns the two digit runs of the
timestamp. -/
def matchTimestamp (cs : List Char) : Option (List Char × List Char) :=
  let d1 := cs.takeWhile Char.isDigit
  if d1.isEmpty then none
  else
    match cs.drop d1.length with
    | '.' :: r =>
      let d2 := r.takeWhile Char.isDigit
      if d2.isEmpty then none
      else
        let r2 := r.drop d2.length
        if (r2.takeWhile isWs).isEmpty then none else some (d1, d2)
    | _ => none

/-- Rendering of the matched timestamp.  The code converts the matched text
with `float` and `datetime.fromtimestamp` and formats the result as a
calendar date string; the calendar conversion is irrelevant to every claim
(and its overflow behaviour on absurd instants is not modelled), so the
matched text itself stands for the rendered value. -/
def formatTimestampText (secs frac : List Char) : String :=
  (secs ++ '.' :: frac).asString

/-- Protocol tag detection: an `" IP "` occurrence is provisional and is
overridden by the TCP/UDP/ICMP tests, which also look at the lowercased
line. -/
def detectProtocol (line : List Char) : String :=
  let low := lowerL line
  let p0 := if isSubstr " IP ".toList line then "IP" else "Unknown"
  if isSubstr " TCP ".toList line || isSubstr ".tcp".toList low then "TCP"
  else if isSubstr " UDP ".toList line || isSubstr ".udp".toList low then "UDP"
  else if isSubstr " ICMP ".toList line || isSubstr "icmp".toList low then "ICMP"
  else p0

/-- Anchored match of
`(\d+\.\d+\.\d+\.\d+)\.(\d+)\s*>\s*(\d+\.\d+\.\d+\.\d+)\.(\d+)`. -/
def addrPortAt (cs : List Char) : Option (String × Nat × String × Nat) :=
  (ipv4At cs).bind fun p =>
    match p.2 with
    | '.' :: r2 =>
      let p1 := r2.takeWhile Char.isDigit
      if p1.isEmpty then none
      else
        let r3 := r2.drop p1.length
        match r3.drop ((r3.takeWhile isWs).length) with
        | '>' :: r5 =>
          let r6 := r5.drop ((r5.takeWhile isWs).length)
          (ipv4At r6).bind fun q =>
            match q.2 with
            | '.' :: r8 =>
              let p2 := r8.takeWhile Char.isDigit
              if p2.isEmpty then none
              else some (p.1.asString, natOfDigits p1, q.1.asString, natOfDigits p2)
            | _ => none
        | _ => none
    | _ => none

/-- Leftmost search for the with-port address pattern. -/
def searchAddrPort : List Char → Option (String × Nat × String × Nat)
  | [] => none
  | c :: rest =>
    match addrPortAt (c :: rest) with
    | some r => some r
    | none => searchAddrPort rest

/-- Anchored match of `(\d+\.\d+\.\d+\.\d+)\s*>\s*(\d+\.\d+\.\d+\.\d+)`. -/
def addrNoPortAt (cs : List Char) : Option (String × String) :=
  (ipv4At cs).bind fun p =>
    match p.2.drop ((p.2.takeWhile isWs).length) with
    | '>' :: r2 =>
      let r3 := r2.drop ((r2.takeWhile isWs).length)
      (ipv4At r3).map fun q => (p.1.asString, q.1.asString)
    | _ => none

/-- Leftmost search for the port-less address pattern. -/
def searchAddrNoPort : List Char → Option (String × String)
  | [] => none
  | c :: rest =>
    match addrNoPortAt (c :: rest) with
    | some r => some r
    | none => searchAddrNoPort rest

/-- Anchored match of `length\s+(\d+)`. -/
def sizeAt (cs : List Char) : Option Nat :=
  (dropPref "length".toList cs).bind fun r =>
    let w := r.takeWhile isWs
    if w.isEmpty then none
    else
      let ds := (r.drop w.length).takeWhile Char.isDigit
      if ds.isEmpty then none else some (natOfDigits ds)

/-- Leftmost search of `length\s+(\d+)`. -/
def searchSize : List Char → Option Nat
  | [] => none
  | c :: rest =>
    match sizeAt (c :: rest) with
    | some r => some r
    | none => searchSize rest

/-- Dictionary assembled by `parse_tcpdump_line` for one parsed packet. -/
structure PacketInfo where
  timestamp : String
  protocol : String
  source : String
  destination : String
  port : Option Nat
  size : Nat
  direction : String
  status : String
deriving DecidableEq, Repr

/-- Common tail of `parse_tcpdump_line`: size extraction, direction,
classification (a `KeyError` escaping `check_packet_status` is caught by
the surrounding `try` and yields `None`), and assembly of the packet
dictionary.  The `src_port`/`dst_port` fields use Python truthiness: a `0`
port renders like an absent one. -/
def assemblePacket (rules : List UFWRule) (localIps : List String)
    (cs : List Char) (tsStr protocol srcIp dstIp : String)
    (srcPort dstPort : Option Nat) : Option PacketInfo :=
  let size := (searchSize cs).getD 0
  let direction := if is_outgoing localIps srcIp dstIp then "outgoing" else "incoming"
  match check_packet_status rules localIps protocol srcIp dstIp srcPort dstPort with
  | .error _ => none
  | .ok status =>
    some { timestamp := tsStr, protocol := protocol,
           source := match srcPort with
             | some n => if n != 0 then srcIp ++ ":" ++ toString n else srcIp
             | none => srcIp,
           destination := match dstPort with
             | some n => if n != 0 then dstIp ++ ":" ++ toString n else dstIp
             | none => dstIp,
           port := match dstPort with
             | some n => if n != 0 then some n else none
             | none => none,
           size := size, direction := direction, status := status }

/-- Embedding of `parse_tcpdump_line` on the character list of the
(already stripped) line. -/
def parse_tcpdump_line_chars (rules : List UFWRule) (localIps : List String)
    (cs : List Char) : Option PacketInfo :=
  match matchTimestamp cs with
  | none => none
  | some (secs, frac) =>
    let tsStr := formatTimestampText secs frac
    let protocol := detectProtocol cs
    match searchAddrPort cs with
    | some (srcIp, srcPort, dstIp, dstPort) =>
      assemblePacket rules localIps cs tsStr protocol srcIp dstIp (some srcPort) (some dstPort)
    | none =>
      match searchAddrNoPort cs with
      | some (srcIp, dstIp) =>
        assemblePacket rules localIps cs tsStr protocol srcIp dstIp none none
      | none => none

/-- Embedding of `parse_tcpdump_line` on a string. -/
def parse_tcpdump_line (rules : List UFWRule) (localIps : List String)
    (line : String) : Option PacketInfo :=
  parse_tcpdump_line_chars rules localIps line.toList

/-- Per-line processing of `_capture_loop`: strip the line, skip it when
empty, otherwise parse it and broadcast the parsed packet when parsing
succeeded.  The returned list holds the packets published for this line. -/
def capture_process_line (rules : List UFWRule) (localIps : List String)
    (line : String) : List PacketInfo :=
  if (stripL line.toList).isEmpty then []
  else
    match parse_tcpdump_line_chars rules localIps (stripL line.toList) with
    | some p => [p]
    | none => []

/-! ## Lemmas about the classifier loop -/

/-- Rules on which the loop body falls through contribute nothing to the
classification. -/
lemma classifyLoop_append (protocol srcIp : String) (dstPort : Option Nat) (isOut : Bool)
    (pre l : List UFWRule)
    (h : ∀ q ∈ pre, ruleStep protocol srcIp dstPort isOut q = .next) :
    classifyLoop protocol srcIp dstPort isOut (pre ++ l) =
      classifyLoop protocol srcIp dstPort isOut l := by
  induction pre with
  | nil => simp
  | cons a t ih =>
    have ha := h a (List.mem_cons_self a t)
    simp only [List.cons_append, classifyLoop, ha]
    exact ih fun q hq => h q (List.mem_cons_of_mem a hq)

/-- A verdict produced by the second return branch comes from the action of the rule. -/
lemma branch2_ret_eq (srcIp ruleText ruleFrom action : String) (m : Bool) (v : String)
    (h : branch2 srcIp ruleText ruleFrom action m = .ret v) : v = actionVerdict action := by
  unfold branch2 at h
  split at h
  · split at h <;> simp_all
  · simp_all

/-- A verdict produced by either return branch comes from the action of the rule. -/
lemma branches_ret_eq (srcIp ruleText ruleFrom action : String) (m : Bool) (v : String)
    (h : branches srcIp ruleText ruleFrom action m = .ret v) : v = actionVerdict action := by
  unfold branches at h
  split at h
  · split at h
    · simp_all
    · exact branch2_ret_eq _ _ _ _ _ _ h
  · exact branch2_ret_eq _ _ _ _ _ _ h

/-- A verdict produced by one loop iteration comes from the action of that rule. -/
lemma ruleStep_ret_eq (protocol srcIp : String) (dstPort : Option Nat) (isOut : Bool)
    (r : UFWRule) (v : String)
    (h : ruleStep protocol srcIp dstPort isOut r = .ret v) : v = actionVerdict r.action := by
  unfold ruleStep at h
  split at h
  · simp_all
  · split at h
    · simp_all
    · exact branches_ret_eq _ _ _ _ _ _ h

/-- A rule whose direction contradicts the direction of the packet is skipped. -/
lemma ruleStep_dir_skip (protocol srcIp : String) (dstPort : Option Nat) (isOut : Bool)
    (q : UFWRule)
    (hc : (isOut = true ∧ lowerS q.direction = "in") ∨
          (isOut = false ∧ lowerS q.direction = "out")) :
    ruleStep protocol srcIp dstPort isOut q = .next := by
  have hskip : dirSkip isOut (lowerS q.direction) = true := by
    rcases hc with ⟨ho, hdir⟩ | ⟨ho, hdir⟩ <;> simp [dirSkip, ho, hdir]
  simp [ruleStep, hskip]

/-! ## C1 and C2 -/

/-- C1: for every rule set, packet and local-address set, if no rule
matches the packet (every loop iteration falls through), classification
returns the default policy: ALLOWED when the packet is outgoing (its
source address is in the local-address set) and DENIED when it is
incoming. -/
theorem check_packet_status_default_policy (rules : List UFWRule) (localIps : List String)
    (protocol srcIp dstIp : String) (srcPort dstPort : Option Nat)
    (h : ∀ r ∈ rules,
        ruleStep protocol srcIp dstPort (is_outgoing localIps srcIp dstIp) r = .next) :
    check_packet_status rules localIps protocol srcIp dstIp srcPort dstPort =
      .ok (if is_outgoing localIps srcIp dstIp then "allowed" else "denied") := by
  have hs := classifyLoop_append protocol srcIp dstPort
    (is_outgoing localIps srcIp dstIp) rules [] h
  simpa [check_packet_status, classifyLoop] using hs

/-- Witness for C1: a single direction-skipped rule, an outgoing packet,
default verdict ALLOWED. -/
theorem check_packet_status_default_policy_witness :
    check_packet_status [⟨1, "80/tcp", "ALLOW", "IN", "anywhere"⟩] ["10.0.0.1"]
      "TCP" "10.0.0.1" "8.8.8.8" none (some 443) =
      .ok (if is_outgoing ["10.0.0.1"] "10.0.0.1" "8.8.8.8" then "allowed" else "denied") :=
  check_packet_status_default_policy _ _ _ _ _ _ _ (by decide)

/-- C2: the classifier iterates the rules in listed order; every rule whose
direction is set and contradicts the direction of the packet is skipped; the
first rule on which the loop body returns decides the verdict — ALLOW
yields `allowed`, anything else yields `denied` — and the rules after it
are never consulted (the result does not depend on `rest`). -/
theorem check_packet_status_first_match (pre rest : List UFWRule) (r : UFWRule)
    (localIps : List String) (protocol srcIp dstIp : String) (srcPort dstPort : Option Nat)
    (v : String)
    (hpre : ∀ q ∈ pre,
        ruleStep protocol srcIp dstPort (is_outgoing localIps srcIp dstIp) q = .next)
    (hr : ruleStep protocol srcIp dstPort (is_outgoing localIps srcIp dstIp) r = .ret v) :
    check_packet_status (pre ++ r :: rest) localIps protocol srcIp dstIp srcPort dstPort =
      .ok v ∧
    v = (if r.action == "ALLOW" then "allowed" else "denied") ∧
    ∀ q : UFWRule, lowerS q.direction ≠ "" →
      ((is_outgoing localIps srcIp dstIp = true ∧ lowerS q.direction = "in") ∨
       (is_outgoing localIps srcIp dstIp = false ∧ lowerS q.direction = "out")) →
      ruleStep protocol srcIp dstPort (is_outgoing localIps srcIp dstIp) q = .next := by
  refine ⟨?_, ?_, ?_⟩
  · unfold check_packet_status
    rw [classifyLoop_append _ _ _ _ _ _ hpre]
    simp [classifyLoop, hr]
  · exact ruleStep_ret_eq _ _ _ _ _ _ hr
  · exact fun q _hd hc => ruleStep_dir_skip _ _ _ _ q hc

/-- Witness for C2: a skipped OUT rule, then a matching DENY rule, then a
later blanket ALLOW rule that is never consulted. -/
theorem check_packet_status_first_match_witness :
    check_packet_status
        [⟨1, "80/tcp", "ALLOW", "OUT", "anywhere"⟩,
         ⟨2, "22/tcp", "DENY", "IN", "anywhere"⟩,
         ⟨3, "22/tcp", "ALLOW", "", "anywhere"⟩]
        ["10.0.0.1"] "TCP" "9.9.9.9" "10.0.0.1" (some 1234) (some 22) = .ok "denied" ∧
    "denied" = (if (UFWRule.mk 2 "22/tcp" "DENY" "IN" "anywhere").action == "ALLOW"
        then "allowed" else "denied") ∧
    ∀ q : UFWRule, lowerS q.direction ≠ "" →
      ((is_outgoing ["10.0.0.1"] "9.9.9.9" "10.0.0.1" = true ∧ lowerS q.direction = "in") ∨
       (is_outgoing ["10.0.0.1"] "9.9.9.9" "10.0.0.1" = false ∧ lowerS q.direction = "out")) →
      ruleStep "TCP" "9.9.9.9" (some 22) (is_outgoing ["10.0.0.1"] "9.9.9.9" "10.0.0.1") q =
        .next :=
  check_packet_status_first_match
    [⟨1, "80/tcp", "ALLOW", "OUT", "anywhere"⟩]
    [⟨3, "22/tcp", "ALLOW", "", "anywhere"⟩]
    ⟨2, "22/tcp", "DENY", "IN", "anywhere"⟩
    ["10.0.0.1"] "TCP" "9.9.9.9" "10.0.0.1" (some 1234) (some 22) "denied"
    (by decide) (by decide)

/-! ## C10: blanket rules whose match flag can never be set -/

/-- The source-restriction block never turns a cleared match flag on. -/
lemma sourceFilter_false (srcIp ruleFrom : String) :
    sourceFilter srcIp ruleFrom false = false := by
  unfold sourceFilter
  split
  · cases findIPv4 ruleFrom.toList <;> simp
  · rfl

/-- The second source-restriction block never turns a cleared match flag
on. -/
lemma sourceFilter2_false (srcIp ruleText ruleFrom : String) :
    sourceFilter2 srcIp ruleText ruleFrom false = false := by
  unfold sourceFilter2
  split
  · cases findIPv4 ruleFrom.toList <;> simp
  · rfl

/-- The second return branch falls through when the match flag is
cleared. -/
lemma branch2_false (srcIp ruleText ruleFrom action : String) :
    branch2 srcIp ruleText ruleFrom action false = .next := by
  unfold branch2
  simp [sourceFilter2_false]

/-- Both return branches fall through when the match flag is cleared. -/
lemma branches_false (srcIp ruleText ruleFrom action : String) :
    branches srcIp ruleText ruleFrom action false = .next := by
  unfold branches
  simp [sourceFilter_false, branch2_false]

/-- A rule field never matches the port phase when it is not a
`port[/proto]` token. -/
lemma portFieldMatch_of_none (field : List Char) (protocol : String) (n : Nat)
    (h : parsePortProto field = none) : portFieldMatch field protocol n = false := by
  unfold portFieldMatch
  rw [h]

/-- The port phase fails when neither field is a `port[/proto]` token. -/
lemma portMatched_of_none (protocol : String) (dstPort : Option Nat)
    (ruleText ruleFrom : String)
    (ht : parsePortProto ruleText.toList = none)
    (hf : parsePortProto ruleFrom.toList = none) :
    portMatched protocol dstPort ruleText ruleFrom = false := by
  unfold portMatched
  cases dstPort with
  | none => rfl
  | some n =>
    show (if (n != 0) = true then
        portFieldMatch ruleText.toList protocol n || portFieldMatch ruleFrom.toList protocol n
      else false) = false
    rw [portFieldMatch_of_none _ protocol n ht, portFieldMatch_of_none _ protocol n hf]
    simp

/-- A rule whose (lowercased) destination field is `anywhere`/`any` and
whose source field is neither a `port[/proto]` token nor a service name
always falls through the loop body. -/
lemma ruleStep_blanket_next (protocol srcIp : String) (dstPort : Option Nat) (isOut : Bool)
    (r : UFWRule)
    (h1 : anyAnywhere (lowerS r.rule) = true)
    (h2 : parsePortProto (lowerS r.«from»).toList = none)
    (h3 : svcLookup (lowerS r.«from») = none) :
    ruleStep protocol srcIp dstPort isOut r = .next := by
  have hrt : lowerS r.rule = "anywhere" ∨ lowerS r.rule = "any" := by
    simpa [anyAnywhere] using h1
  have htnone : parsePortProto (lowerS r.rule).toList = none := by
    rcases hrt with h | h <;> rw [h] <;> rfl
  have hsvc : svcLookup (lowerS r.rule) = none := by
    rcases hrt with h | h <;> rw [h] <;> rfl
  have hm : portMatched protocol dstPort (lowerS r.rule) (lowerS r.«from») = false :=
    portMatched_of_none _ _ _ _ htnone h2
  unfold ruleStep
  split
  · rfl
  · rw [hm]
    simp [svcMatchStep, hsvc, h3, branches_false]

/-- C10: a rule whose normalized destination field is `anywhere`/`any` and
whose source field is neither a `port[/proto]` token nor a known service
name never determines the verdict — classification is unchanged when the
rule is removed from the list. -/
theorem check_packet_status_ignores_blanket_rule (pre post : List UFWRule) (r : UFWRule)
    (localIps : List String) (protocol srcIp dstIp : String) (srcPort dstPort : Option Nat)
    (h1 : anyAnywhere (lowerS r.rule) = true)
    (h2 : parsePortProto (lowerS r.«from»).toList = none)
    (h3 : svcLookup (lowerS r.«from») = none) :
    check_packet_status (pre ++ r :: post) localIps protocol srcIp dstIp srcPort dstPort =
      check_packet_status (pre ++ post) localIps protocol srcIp dstIp srcPort dstPort := by
  unfold check_packet_status
  induction pre with
  | nil =>
    simp [classifyLoop, ruleStep_blanket_next _ _ _ _ _ h1 h2 h3]
  | cons a t ih =>
    simp only [List.cons_append, classifyLoop]
    cases ruleStep protocol srcIp dstPort (is_outgoing localIps srcIp dstIp) a <;>
      simp [ih]

/-- Witness for C10: a blanket source-only DENY rule is ignored even for a
packet coming from exactly the listed source. -/
theorem check_packet_status_ignores_blanket_rule_witness :
    check_packet_status
        ([] ++ ⟨1, "Anywhere", "DENY", "", "192.168.1.5"⟩ ::
          [⟨2, "22/tcp", "ALLOW", "", "anywhere"⟩])
        ["192.168.1.5"] "TCP" "192.168.1.5" "8.8.8.8" none (some 22) =
      check_packet_status ([] ++ [⟨2, "22/tcp", "ALLOW", "", "anywhere"⟩])
        ["192.168.1.5"] "TCP" "192.168.1.5" "8.8.8.8" none (some 22) :=
  check_packet_status_ignores_blanket_rule [] [⟨2, "22/tcp", "ALLOW", "", "anywhere"⟩]
    ⟨1, "Anywhere", "DENY", "", "192.168.1.5"⟩ ["192.168.1.5"] "TCP" "192.168.1.5"
    "8.8.8.8" none (some 22) (by decide) (by decide) (by decide)

/-! ## C4: the classifier is not total -/

/-- C4 evaluation: a rule whose source field is the service name `ssh`
while its destination field is not a table key makes `check_packet_status`
evaluate `protocol_ports[rule_text]` and raise `KeyError` instead of
returning a verdict. -/
theorem check_packet_status_keyerror_on_service_source :
    check_packet_status [⟨1, "Anywhere", "ALLOW", "", "ssh"⟩] ["10.0.0.2"]
      "TCP" "1.2.3.4" "5.6.7.8" none (some 22) = .error () := by
  rfl

/-! ## C5: the normalizer on the status lines quoted in the specification -/

/-- C5 counterexample: on the two raw lines of the claim, `list_rules`
produces no rule numbered 2 at all — the second line has only single spaces
between fields, and with the direction absent the pattern needs two
whitespace runs between the action and the source, so the line is dropped
as unparsed. -/
theorem list_rules_single_space_line_dropped :
    list_rules "[1] 22/tcp ALLOW IN 192.168.1.5\n[2] Anywhere ALLOW 10.0.0.0/8" =
      [⟨1, "22/tcp", "ALLOW", "IN", "192.168.1.5"⟩] ∧
    ∀ r ∈ list_rules "[1] 22/tcp ALLOW IN 192.168.1.5\n[2] Anywhere ALLOW 10.0.0.0/8",
      r.num ≠ 2 := by
  constructor
  · rfl
  · decide

/-- C5 amended: rule 1 parses exactly as claimed; the claimed output for
rule 2 is produced once the action and source are separated by at least two
spaces (as in real `ufw status numbered` output), the swap heuristic
keeping `Anywhere` as the destination matcher and `10.0.0.0/8` as the
source. -/
theorem list_rules_swap_heuristic_amended :
    list_rules "[1] 22/tcp ALLOW IN 192.168.1.5\n[2] Anywhere ALLOW 10.0.0.0/8" =
      [⟨1, "22/tcp", "ALLOW", "IN", "192.168.1.5"⟩] ∧
    list_rules "[1] 22/tcp ALLOW IN 192.168.1.5\n[2] Anywhere ALLOW  10.0.0.0/8" =
      [⟨1, "22/tcp", "ALLOW", "IN", "192.168.1.5"⟩,
       ⟨2, "Anywhere", "ALLOW", "", "10.0.0.0/8"⟩] := by
  constructor <;> rfl

/-! ## Lemmas about the file-event consumer -/

/-- Alert counts add up over concatenation. -/
lemma warningCount_append (a b : List Alert) :
    warningCount (a ++ b) = warningCount a + warningCount b := by
  simp [warningCount, List.filter_append]

/-- The auto-lock helper emits no WARNING alert. -/
lemma auto_lock_file_warnings (db : List ProtectedFile) (fid : Nat) (reason : String) :
    warningCount (auto_lock_file db fid reason).2 = 0 := by
  unfold auto_lock_file
  split
  · rfl
  · split <;> rfl

/-- The auto-lock helper does not touch the access counters. -/
lemma auto_lock_file_map_attempts (db : List ProtectedFile) (fid : Nat) (reason : String) :
    (auto_lock_file db fid reason).1.map (fun g => g.access_attempts) =
      db.map (fun g => g.access_attempts) := by
  unfold auto_lock_file
  split
  · rfl
  · split
    · simp only [List.map_map]
      refine List.map_congr_left fun a _ => ?_
      by_cases h : a.id = fid <;> simp [h]
    · rfl

/-- The auto-lock helper does not touch the access times. -/
lemma auto_lock_file_map_last (db : List ProtectedFile) (fid : Nat) (reason : String) :
    (auto_lock_file db fid reason).1.map (fun g => g.last_accessed) =
      db.map (fun g => g.last_accessed) := by
  unfold auto_lock_file
  split
  · rfl
  · split
    · simp only [List.map_map]
      refine List.map_congr_left fun a _ => ?_
      by_cases h : a.id = fid <;> simp [h]
    · rfl

/-- Counter update, projected to the counters. -/
lemma update_access_attempts_map_attempts (db : List ProtectedFile) (fid now : Nat) :
    (update_access_attempts db fid now).map (fun g => g.access_attempts) =
      db.map (fun g => if g.id == fid then g.access_attempts + 1 else g.access_attempts) := by
  unfold update_access_attempts
  simp only [List.map_map]
  refine List.map_congr_left fun a _ => ?_
  by_cases h : a.id = fid <;> simp [h]

/-- Counter update, projected to the access times. -/
lemma update_access_attempts_map_last (db : List ProtectedFile) (fid now : Nat) :
    (update_access_attempts db fid now).map (fun g => g.last_accessed) =
      db.map (fun g => if g.id == fid then some now else g.last_accessed) := by
  unfold update_access_attempts
  simp only [List.map_map]
  refine List.map_congr_left fun a _ => ?_
  by_cases h : a.id = fid <;> simp [h]

/-- Unfolding of the consumer step when the path resolves to a record. -/
lemma handle_file_event_some (db : List ProtectedFile) (paths : List String)
    (event_type p : String) (old : Option String) (now : Nat) (f : ProtectedFile)
    (h : get_protected_file db paths p = some f) :
    handle_file_event db paths event_type p old now =
      ((if f.auto_lock && decide (5 < f.access_attempts) then
          auto_lock_file (update_access_attempts db f.id now) f.id lock_reason_default
        else (update_access_attempts db f.id now, [])).1,
       (if should_alert event_type f then [fileWarnAlert event_type p] else []) ++
         (if f.auto_lock && decide (5 < f.access_attempts) then
            auto_lock_file (update_access_attempts db f.id now) f.id lock_reason_default
          else (update_access_attempts db f.id now, [])).2,
       [⟨event_type, p, old, f.id, now⟩]) := by
  unfold handle_file_event
  rw [h]

/-- Unfolding of the consumer step when the path does not resolve. -/
lemma handle_file_event_none (db : List ProtectedFile) (paths : List String)
    (event_type p : String) (old : Option String) (now : Nat)
    (h : get_protected_file db paths p = none) :
    handle_file_event db paths event_type p old now = (db, [], []) := by
  unfold handle_file_event
  rw [h]

/-! ## C6, C7 and C8 -/

/-- C6: the alert decision is a function of the event type and the
`on_write`/`on_delete` flags alone — MODIFIED and MOVED alert exactly when
`alert_on_write` is set, CREATED and DELETED exactly when
`alert_on_delete` is set, and `alert_on_read` never influences the
decision. -/
theorem should_alert_decision (f : ProtectedFile) :
    should_alert "modified" f = f.alert_on_write ∧
    should_alert "moved" f = f.alert_on_write ∧
    should_alert "created" f = f.alert_on_delete ∧
    should_alert "deleted" f = f.alert_on_delete ∧
    ∀ (event_type : String) (b : Bool),
      should_alert event_type { f with alert_on_read := b } = should_alert event_type f := by
  refine ⟨?_, ?_, ?_, ?_, ?_⟩
  · cases hw : f.alert_on_write <;> simp [should_alert, hw]
  · cases hw : f.alert_on_write <;> simp [should_alert, hw]
  · cases hd : f.alert_on_delete <;> simp [should_alert, hd]
  · cases hd : f.alert_on_delete <;> simp [should_alert, hd]
  · intro event_type b
    simp [should_alert]

/-- C7: one MODIFIED event on a path that resolves to a record with
`alert_on_write` set publishes exactly one `file_event`, persists exactly
one WARNING alert, increments the counter of exactly that record by one and sets
its access time. -/
theorem modified_event_unit_effects (db : List ProtectedFile) (paths : List String)
    (p : String) (old : Option String) (now : Nat) (f : ProtectedFile)
    (hres : get_protected_file db paths p = some f)
    (hw : f.alert_on_write = true) :
    (handle_file_event db paths "modified" p old now).2.2.length = 1 ∧
    warningCount (handle_file_event db paths "modified" p old now).2.1 = 1 ∧
    (handle_file_event db paths "modified" p old now).1.map (fun g => g.access_attempts) =
      db.map (fun g => if g.id == f.id then g.access_attempts + 1 else g.access_attempts) ∧
    (handle_file_event db paths "modified" p old now).1.map (fun g => g.last_accessed) =
      db.map (fun g => if g.id == f.id then some now else g.last_accessed) := by
  have hsa : should_alert "modified" f = true := by simp [should_alert, hw]
  rw [handle_file_event_some db paths "modified" p old now f hres, hsa]
  refine ⟨?_, ?_, ?_, ?_⟩
  · simp
  · split
    · rw [warningCount_append, auto_lock_file_warnings]
      rfl
    · rw [warningCount_append]
      rfl
  · split
    · rw [auto_lock_file_map_attempts, update_access_attempts_map_attempts]
    · rw [update_access_attempts_map_attempts]
  · split
    · rw [auto_lock_file_map_last, update_access_attempts_map_last]
    · rw [update_access_attempts_map_last]

/-- Witness for C7: a MODIFIED event on a directly protected file. -/
theorem modified_event_unit_effects_witness :
    (handle_file_event
        [⟨1, "/etc/passwd", .«protected», 0, none, none, true, true, true, false⟩] []
        "modified" "/etc/passwd" none 5).2.2.length = 1 ∧
    warningCount (handle_file_event
        [⟨1, "/etc/passwd", .«protected», 0, none, none, true, true, true, false⟩] []
        "modified" "/etc/passwd" none 5).2.1 = 1 ∧
    ((handle_file_event
        [⟨1, "/etc/passwd", .«protected», 0, none, none, true, true, true, false⟩] []
        "modified" "/etc/passwd" none 5).1.map (fun g => g.access_attempts) =
      ([⟨1, "/etc/passwd", .«protected», 0, none, none, true, true, true, false⟩] :
          List ProtectedFile).map
        (fun g => if g.id == 1 then g.access_attempts + 1 else g.access_attempts)) ∧
    ((handle_file_event
        [⟨1, "/etc/passwd", .«protected», 0, none, none, true, true, true, false⟩] []
        "modified" "/etc/passwd" none 5).1.map (fun g => g.last_accessed) =
      ([⟨1, "/etc/passwd", .«protected», 0, none, none, true, true, true, false⟩] :
          List ProtectedFile).map
        (fun g => if g.id == 1 then some 5 else g.last_accessed)) :=
  modified_event_unit_effects
    [⟨1, "/etc/passwd", .«protected», 0, none, none, true, true, true, false⟩] []
    "/etc/passwd" none 5
    ⟨1, "/etc/passwd", .«protected», 0, none, none, true, true, true, false⟩
    (by decide) (by decide)

/-- C8 counterexample: a MODIFIED event on a protected record with
`alert_on_write` unset produces no alert record, yet still publishes one
`file_event` — publication is unconditional for attributable events, not
confined to the alerting branch. -/
theorem file_event_published_without_alert :
    (handle_file_event
        [⟨1, "/a/f", .«protected», 0, none, none, true, false, true, false⟩]
        ["/a"] "modified" "/a/f" none 3).2.1 = [] ∧
    (handle_file_event
        [⟨1, "/a/f", .«protected», 0, none, none, true, false, true, false⟩]
        ["/a"] "modified" "/a/f" none 3).2.2.length = 1 := by
  constructor <;> rfl

/-- C8 amended: for an attributable event whose alert decision is negative,
no alert record is emitted and, when the auto-lock escalation does not
fire, the only state effect is the counter/access-time update of the
resolved record — but the `file_event` is still published; unattributable
events are dropped with no effect at all. -/
theorem negative_decision_frame (db : List ProtectedFile) (paths : List String)
    (event_type p : String) (old : Option String) (now : Nat) (f : ProtectedFile)
    (hres : get_protected_file db paths p = some f)
    (hna : should_alert event_type f = false)
    (hnl : f.auto_lock = false ∨ f.access_attempts ≤ 5) :
    handle_file_event db paths event_type p old now =
      (update_access_attempts db f.id now, [], [⟨event_type, p, old, f.id, now⟩]) ∧
    ∀ (db' : List ProtectedFile) (paths' : List String) (et' p' : String)
      (old' : Option String) (now' : Nat),
      get_protected_file db' paths' p' = none →
      handle_file_event db' paths' et' p' old' now' = (db', [], []) := by
  constructor
  · have hcond : (f.auto_lock && decide (5 < f.access_attempts)) = false := by
      rcases hnl with h | h
      · simp [h]
      · simp [Nat.not_lt_of_le h]
    rw [handle_file_event_some db paths event_type p old now f hres, hna, hcond]
    simp
  · intro db' paths' et' p' old' now' hnone
    exact handle_file_event_none _ _ _ _ _ _ hnone

/-- Witness for the amended statement of C8: MODIFIED event with
`alert_on_write` unset on a record with `auto_lock` off. -/
theorem negative_decision_frame_witness :
    handle_file_event
        [⟨1, "/a/f", .«protected», 2, none, none, true, false, true, false⟩]
        ["/a"] "modified" "/a/f" none 3 =
      (update_access_attempts
        [⟨1, "/a/f", .«protected», 2, none, none, true, false, true, false⟩] 1 3,
       [], [⟨"modified", "/a/f", none, 1, 3⟩]) ∧
    ∀ (db' : List ProtectedFile) (paths' : List String) (et' p' : String)
      (old' : Option String) (now' : Nat),
      get_protected_file db' paths' p' = none →
      handle_file_event db' paths' et' p' old' now' = (db', [], []) :=
  negative_decision_frame _ ["/a"] "modified" "/a/f" none 3
    ⟨1, "/a/f", .«protected», 2, none, none, true, false, true, false⟩
    (by decide) (by decide) (by decide)

/-! ## C3: the auto-lock escalation as the code actually runs it -/

/-- C3 evaluation: starting from a PROTECTED record with `auto_lock` set
and a zero counter, six consecutive attributable MODIFIED events leave the
record PROTECTED with no CRITICAL alert (the escalation reads the
pre-increment counter snapshot, so the strict `> 5` test first passes on
the seventh event); the seventh event locks the record and sets the default
reason with one CRITICAL alert; and the eighth event emits a second
CRITICAL alert, because the guard `status != "locked"` compares an enum
member with a string and never blocks re-locking. -/
theorem auto_lock_seventh_event_and_retrigger :
    ((run_events ["/p"] "modified" "/p" none 0 6
        [⟨1, "/p", .«protected», 0, none, none, true, true, true, true⟩]).1.map
        (fun g => g.status) = [FileStatus.«protected»] ∧
     criticalCount (run_events ["/p"] "modified" "/p" none 0 6
        [⟨1, "/p", .«protected», 0, none, none, true, true, true, true⟩]).2.1 = 0) ∧
    ((run_events ["/p"] "modified" "/p" none 0 7
        [⟨1, "/p", .«protected», 0, none, none, true, true, true, true⟩]).1.map
        (fun g => g.status) = [FileStatus.locked] ∧
     (run_events ["/p"] "modified" "/p" none 0 7
        [⟨1, "/p", .«protected», 0, none, none, true, true, true, true⟩]).1.map
        (fun g => g.lock_reason) = [some lock_reason_default] ∧
     criticalCount (run_events ["/p"] "modified" "/p" none 0 7
        [⟨1, "/p", .«protected», 0, none, none, true, true, true, true⟩]).2.1 = 1) ∧
    criticalCount (run_events ["/p"] "modified" "/p" none 0 8
        [⟨1, "/p", .«protected», 0, none, none, true, true, true, true⟩]).2.1 = 2 := by
  refine ⟨⟨?_, ?_⟩, ⟨?_, ?_, ?_⟩, ?_⟩ <;> rfl

/-! ## C9: unparseable capture lines -/

/-- C9: a capture line that fails every parse pattern (no leading
timestamp, or no recognizable address pair in either form) yields no packet
from the parser, and per-line processing publishes nothing — the loop
simply moves on. -/
theorem unparsed_line_not_published (rules : List UFWRule) (localIps : List String)
    (line : String)
    (h : matchTimestamp (stripL line.toList) = none ∨
         (searchAddrPort (stripL line.toList) = none ∧
          searchAddrNoPort (stripL line.toList) = none)) :
    parse_tcpdump_line_chars rules localIps (stripL line.toList) = none ∧
    capture_process_line rules localIps line = [] := by
  have hp : parse_tcpdump_line_chars rules localIps (stripL line.toList) = none := by
    unfold parse_tcpdump_line_chars
    rcases h with h | ⟨h1, h2⟩
    · rw [h]
    · cases hm : matchTimestamp (stripL line.toList) with
      | none => rfl
      | some x => cases x with
        | mk secs frac => rw [h1, h2]
  refine ⟨hp, ?_⟩
  unfold capture_process_line
  split
  · rfl
  · rw [hp]

/-- Witness for C9: a line with no leading numeric timestamp. -/
theorem unparsed_line_not_published_witness :
    parse_tcpdump_line_chars [] [] (stripL ("no packet here".toList)) = none ∧
    capture_process_line [] [] "no packet here" = [] :=
  unparsed_line_not_published [] [] "no packet here" (Or.inl (by decide))

end HIDS
